import Mathlib

set_option autoImplicit false

/-!
Shallow embedding of the account workflow of `src/signup.py` (flower-shop
backend): user signup with OTP verification, OTP resend with rate limiting,
login, update and delete.  The two JSON files (`users.json`, `otps.json`) are
modelled as association lists keyed by email; `time.time()` values are
rationals; the randomly generated UUID and OTP of an operation are passed in
as explicit oracle arguments.  `HTTPException(status, detail)` becomes the
`httpError` constructor, a Python `KeyError` on a missing dict key becomes
`keyError`.
-/

namespace FlowerShop

/-- Lookup in an association list, mirroring Python `d.get(k)` / `k in d`. -/
def lookupA {α : Type} : List (String × α) → String → Option α
  | [], _ => none
  | (k, v) :: rest, k' => if k = k' then some v else lookupA rest k'

/-- Key assignment `d[k] = v` on a Python dict: replace in place if the key is
present, otherwise append. -/
def insertA {α : Type} : List (String × α) → String → α → List (String × α)
  | [], k, v => [(k, v)]
  | (k0, v0) :: rest, k, v =>
      if k0 = k then (k0, v) :: rest else (k0, v0) :: insertA rest k v

/-- Key removal `del d[k]` on a Python dict (removes the first occurrence). -/
def eraseA {α : Type} : List (String × α) → String → List (String × α)
  | [], _ => []
  | (k0, v0) :: rest, k => if k0 = k then rest else (k0, v0) :: eraseA rest k

/-- A well-formed store has pairwise distinct keys, as a Python dict does. -/
def keysNodup {α : Type} (m : List (String × α)) : Prop :=
  (m.map Prod.fst).Nodup

/-- Regex class `\w` (ASCII reading): letters, digits and underscore. -/
def isWordChar (c : Char) : Bool := c.isAlphanum || c == '_'

/-- Regex class `[\w\.-]`: word characters, dot and hyphen. -/
def isLocalChar (c : Char) : Bool := isWordChar c || c == '.' || c == '-'

/-- Python `str.strip()` whitespace set (ASCII reading). -/
def isPySpace (c : Char) : Bool :=
  c == ' ' || c == '\t' || c == '\n' || c == '\r' || c == '\x0b' || c == '\x0c'

/-- `not s.strip()`: the string is empty or consists of whitespace only. -/
def strippedEmpty (s : String) : Bool := s.toList.all isPySpace

/-- The domain side of the signup email regex, `[\w\.-]+\.\w+`: some dot splits
it into a nonempty `[\w\.-]+` prefix and a nonempty `\w+` suffix. -/
def matchesDomain (l : List Char) : Bool :=
  (List.range l.length).any fun i =>
    decide (0 < i) && decide (l.get? i = some '.') &&
      (l.take i).all isLocalChar &&
      decide (l.drop (i + 1) ≠ []) && (l.drop (i + 1)).all isWordChar

/-- `is_valid_email` of `signup.py`: `re.match(r"^[\w\.-]+@[\w\.-]+\.\w+$", email)`. -/
def is_valid_email (s : String) : Bool :=
  let l := s.toList
  (List.range l.length).any fun i =>
    decide (0 < i) && decide (l.get? i = some '@') &&
      (l.take i).all isLocalChar && matchesDomain (l.drop (i + 1))

/-- `is_strong_password` of `signup.py`: length at least 8, and `re.search`
finds `[A-Z]`, `[a-z]` and `\d` (ASCII reading). -/
def is_strong_password (p : String) : Bool :=
  decide (8 ≤ p.length) &&
    p.toList.any Char.isUpper &&
    p.toList.any Char.isLower &&
    p.toList.any Char.isDigit

/-- A record of `users.json`.  `signup` writes the first six fields; the
`"name"` key is only ever written by `update_user`, hence optional. -/
structure UserRecord where
  id : String
  first_name : String
  last_name : String
  email : String
  password : String
  verified : Bool
  name : Option String
deriving DecidableEq, Repr

/-- An entry of `otps.json`: the 6-digit code and its issuance time. -/
structure OTPEntry where
  otp : String
  timestamp : ℚ
deriving DecidableEq, Repr

/-- Both persisted stores. -/
structure AppState where
  users : List (String × UserRecord)
  otps : List (String × OTPEntry)
deriving DecidableEq, Repr

/-- Outcome of a request handler: a returned payload, a raised
`HTTPException(status, detail)`, or an uncaught Python `KeyError`. -/
inductive Resp (α : Type) where
  | ok : α → Resp α
  | httpError : Nat → String → Resp α
  | keyError : String → Resp α
deriving DecidableEq, Repr

/-- Python `int()` applied to a rational: truncation toward zero. -/
def truncInt (q : ℚ) : ℤ := if 0 ≤ q then ⌊q⌋ else ⌈q⌉

/-- The 403 detail f-string of `resend_otp`. -/
def rateLimitDetail (remaining : ℤ) : String :=
  "Wait " ++ toString remaining ++ " seconds before resending OTP."

/-- `signup` of `signup.py`.  `newId` is the generated `uuid4`, `newOtp` the
generated 6-digit code, `now` the value of `time.time()`.  Returns the response
and the resulting state. -/
def signup (st : AppState) (first_name last_name email password : String)
    (newId newOtp : String) (now : ℚ) :
    Resp (String × String × String) × AppState :=
  if !is_valid_email email then
    (.httpError 400 "Invalid email format.", st)
  else if strippedEmpty first_name || strippedEmpty last_name then
    (.httpError 400 "First and last name cannot be empty.", st)
  else if !is_strong_password password then
    (.httpError 400 "Password must contain uppercase, lowercase, and digit.", st)
  else if (match lookupA st.users email with
           | some u => u.verified
           | none => false) then
    (.httpError 400 "Email already registered and verified. Please login instead.", st)
  else
    (.ok ("User registered successfully. OTP sent.", newOtp, email),
     { users := insertA st.users email
         { id := newId, first_name := first_name, last_name := last_name,
           email := email, password := password, verified := false, name := none },
       otps := insertA st.otps email { otp := newOtp, timestamp := now } })

/-- `verify_otp` of `signup.py`. -/
def verify_otp (st : AppState) (email otp : String) : Resp String × AppState :=
  match lookupA st.otps email with
  | none => (.httpError 404 "No OTP found for this email.", st)
  | some entry =>
    if entry.otp ≠ otp then
      (.httpError 400 "Invalid OTP.", st)
    else
      (.ok "OTP verified successfully. User is now verified.",
       { users :=
           match lookupA st.users email with
           | some u => insertA st.users email { u with verified := true }
           | none => st.users,
         otps := eraseA st.otps email })

/-- `resend_otp` of `signup.py`.  `newOtp` is the freshly generated code and
`now` the value of `time.time()`. -/
def resend_otp (st : AppState) (email newOtp : String) (now : ℚ) :
    Resp (String × String) × AppState :=
  match lookupA st.otps email with
  | none => (.httpError 404 "No OTP found. Please sign up again.", st)
  | some entry =>
    if now - entry.timestamp < 300 then
      (.httpError 403 (rateLimitDetail (truncInt (300 - (now - entry.timestamp)))), st)
    else
      (.ok ("OTP resent. Check console.", newOtp),
       { st with otps := insertA st.otps email { otp := newOtp, timestamp := now } })

/-- `login` of `signup.py`.  The success path reads `user['name']`, a key no
record written by `signup` has, so it can raise `KeyError`. -/
def login (st : AppState) (email password : String) : Resp String × AppState :=
  if strippedEmpty password then
    (.httpError 400 "Password cannot be empty.", st)
  else
    match lookupA st.users email with
    | none => (.httpError 404 "User not found.", st)
    | some u =>
      if !u.verified then
        (.httpError 403 "Email not verified. Please verify OTP first.", st)
      else if u.password ≠ password then
        (.httpError 401 "Incorrect password.", st)
      else
        match u.name with
        | some n => (.ok ("Login successful. Welcome " ++ n ++ "!"), st)
        | none => (.keyError "name", st)

/-- `update_user` of `signup.py`: writes the keys `"name"` and `"password"`. -/
def update_user (st : AppState) (email nm pw : String) : Resp String × AppState :=
  match lookupA st.users email with
  | none => (.httpError 404 "User not found.", st)
  | some u =>
    (.ok ("User " ++ email ++ " updated successfully."),
     { st with users := insertA st.users email { u with name := some nm, password := pw } })

/-- `delete_user` of `signup.py`. -/
def delete_user (st : AppState) (email : String) : Resp String × AppState :=
  match lookupA st.users email with
  | none => (.httpError 404 "User not found.", st)
  | some _ =>
    (.ok ("User with email " ++ email ++ " has been deleted."),
     { st with users := eraseA st.users email })

/-- The password precondition in the words of the specification: length at
least 8 and at least one uppercase ASCII letter, one lowercase ASCII letter
and one digit. -/
def specStrongPassword (p : String) : Prop :=
  8 ≤ p.length ∧ (∃ c ∈ p.toList, c.isUpper = true) ∧
    (∃ c ∈ p.toList, c.isLower = true) ∧ (∃ c ∈ p.toList, c.isDigit = true)

/-- Looking up the key just assigned returns the assigned value. -/
theorem lookupA_insertA_self {α : Type} (m : List (String × α)) (k : String) (v : α) :
    lookupA (insertA m k v) k = some v := by
  induction m with
  | nil => simp [insertA, lookupA]
  | cons p rest ih =>
    obtain ⟨k0, v0⟩ := p
    by_cases h : k0 = k
    · subst h
      simp [insertA, lookupA]
    · simp [insertA, lookupA, h, ih]

/-- Assignment at one key leaves lookups at every other key unchanged. -/
theorem lookupA_insertA_ne {α : Type} (m : List (String × α)) (k k' : String) (v : α)
    (h : k' ≠ k) : lookupA (insertA m k v) k' = lookupA m k' := by
  induction m with
  | nil =>
    have h0 : ¬k = k' := fun hh => h hh.symm
    simp [insertA, lookupA, h0]
  | cons p rest ih =>
    obtain ⟨k0, v0⟩ := p
    by_cases hk : k0 = k
    · subst hk
      have h0 : ¬k0 = k' := fun hh => h hh.symm
      simp [insertA, lookupA, h0]
    · simp [insertA, lookupA, hk, ih]

/-- A key that is not among the keys of the list does not resolve. -/
theorem lookupA_eq_none {α : Type} (m : List (String × α)) (k : String)
    (h : k ∉ m.map Prod.fst) : lookupA m k = none := by
  induction m with
  | nil => rfl
  | cons p rest ih =>
    obtain ⟨k0, v0⟩ := p
    simp only [List.map_cons, List.mem_cons, not_or] at h
    have h0 : ¬k0 = k := fun hh => h.1 hh.symm
    simp [lookupA, h0, ih h.2]

/-- Deleting a key from a store with distinct keys makes it unresolvable. -/
theorem lookupA_eraseA_self {α : Type} (m : List (String × α)) (k : String)
    (h : keysNodup m) : lookupA (eraseA m k) k = none := by
  induction m with
  | nil => rfl
  | cons p rest ih =>
    obtain ⟨k0, v0⟩ := p
    rw [keysNodup, List.map_cons, List.nodup_cons] at h
    by_cases hk : k0 = k
    · subst hk
      simpa [eraseA] using lookupA_eq_none rest k0 h.1
    · simp [eraseA, hk, lookupA, ih h.2]

/-- Claim C1 (refuted by the code — code bug): a user record created by
`signup` (which stores `first_name` and `last_name` but no `"name"` key) and
then verified by `verify_otp` cannot log in: `login` with the stored password
reaches its success path and raises `KeyError('name')` reading `user['name']`,
instead of returning a welcome message naming the user. -/
theorem C1_login_raises_keyerror_after_signup_and_verify :
    (signup ⟨[], []⟩ "Jane" "Doe" "jane@example.com" "Passw0rd1" "id-1" "123456" 0).1 =
      Resp.ok ("User registered successfully. OTP sent.", "123456", "jane@example.com") ∧
    (verify_otp (signup ⟨[], []⟩ "Jane" "Doe" "jane@example.com" "Passw0rd1" "id-1" "123456" 0).2
        "jane@example.com" "123456").1 =
      Resp.ok "OTP verified successfully. User is now verified." ∧
    (login (verify_otp (signup ⟨[], []⟩ "Jane" "Doe" "jane@example.com" "Passw0rd1" "id-1" "123456" 0).2
        "jane@example.com" "123456").2 "jane@example.com" "Passw0rd1").1 =
      Resp.keyError "name" := by decide

/-- Claim C2: when an OTP challenge exists for an email but no user record
does, `verify_otp` with the matching code returns the success message, skips
the verified-flag update (the users store is untouched), and deletes the
challenge from the OTP store. -/
theorem C2_verify_otp_without_user (st : AppState) (email : String) (e : OTPEntry)
    (h1 : lookupA st.otps email = some e)
    (h2 : lookupA st.users email = none)
    (h3 : keysNodup st.otps) :
    (verify_otp st email e.otp).1 =
      Resp.ok "OTP verified successfully. User is now verified." ∧
    (verify_otp st email e.otp).2.users = st.users ∧
    (verify_otp st email e.otp).2.otps = eraseA st.otps email ∧
    lookupA (verify_otp st email e.otp).2.otps email = none := by
  simp [verify_otp, h1, h2, lookupA_eraseA_self st.otps email h3]

/-- Concrete instance of C2: a challenge for `a@b.c` with no user record. -/
theorem C2_verify_otp_without_user_witness :
    (verify_otp ⟨[], [("a@b.c", ⟨"123456", 0⟩)]⟩ "a@b.c" "123456").1 =
      Resp.ok "OTP verified successfully. User is now verified." ∧
    (verify_otp ⟨[], [("a@b.c", ⟨"123456", 0⟩)]⟩ "a@b.c" "123456").2.users = [] ∧
    (verify_otp ⟨[], [("a@b.c", ⟨"123456", 0⟩)]⟩ "a@b.c" "123456").2.otps =
      eraseA [("a@b.c", ⟨"123456", 0⟩)] "a@b.c" ∧
    lookupA (verify_otp ⟨[], [("a@b.c", ⟨"123456", 0⟩)]⟩ "a@b.c" "123456").2.otps "a@b.c" = none :=
  C2_verify_otp_without_user ⟨[], [("a@b.c", ⟨"123456", 0⟩)]⟩ "a@b.c" ⟨"123456", 0⟩
    rfl rfl (by simp [keysNodup])

/-- Claim C3: `update_user` on an existing record succeeds and overwrites the
record's `name` and `password` fields in place — with no password-strength
re-validation, since `nm` and `pw` are arbitrary — and persists the result;
on an absent email it fails 404 "not found" and leaves the state unchanged. -/
theorem C3_update_user_spec (st : AppState) (email nm pw : String) :
    (∀ u, lookupA st.users email = some u →
      update_user st email nm pw =
        (Resp.ok ("User " ++ email ++ " updated successfully."),
         { st with users := insertA st.users email { u with name := some nm, password := pw } })) ∧
    (lookupA st.users email = none →
      update_user st email nm pw = (Resp.httpError 404 "User not found.", st)) := by
  constructor
  · intro u hu
    simp [update_user, hu]
  · intro h
    simp [update_user, h]

/-- Concrete instance of C3: an update of an existing record (with a weak new
password, showing no re-validation) and of an absent email. -/
theorem C3_update_user_spec_witness :
    update_user ⟨[("jane@example.com",
        ⟨"id-9", "Jane", "Doe", "jane@example.com", "Passw0rd1", true, none⟩)], []⟩
        "jane@example.com" "Janet" "x" =
      (Resp.ok ("User " ++ "jane@example.com" ++ " updated successfully."),
       ⟨insertA [("jane@example.com",
          ⟨"id-9", "Jane", "Doe", "jane@example.com", "Passw0rd1", true, none⟩)]
          "jane@example.com"
          ⟨"id-9", "Jane", "Doe", "jane@example.com", "x", true, some "Janet"⟩, []⟩) ∧
    update_user ⟨[], []⟩ "jane@example.com" "Janet" "x" =
      (Resp.httpError 404 "User not found.", ⟨[], []⟩) :=
  ⟨(C3_update_user_spec ⟨[("jane@example.com",
      ⟨"id-9", "Jane", "Doe", "jane@example.com", "Passw0rd1", true, none⟩)], []⟩
      "jane@example.com" "Janet" "x").1
      ⟨"id-9", "Jane", "Doe", "jane@example.com", "Passw0rd1", true, none⟩ rfl,
   (C3_update_user_spec ⟨[], []⟩ "jane@example.com" "Janet" "x").2 rfl⟩

/-- Claim C5: with a live challenge and any supplied code differing from the
stored one, `verify_otp` fails 400 "Invalid OTP." and leaves the whole state
unchanged, so the same state still verifies with the correct code. -/
theorem C5_verify_otp_wrong_code (st : AppState) (email code : String) (e : OTPEntry)
    (h1 : lookupA st.otps email = some e) (h2 : code ≠ e.otp) :
    verify_otp st email code = (Resp.httpError 400 "Invalid OTP.", st) ∧
    (verify_otp st email e.otp).1 =
      Resp.ok "OTP verified successfully. User is now verified." := by
  constructor
  · simp [verify_otp, h1, Ne.symm h2]
  · simp [verify_otp, h1]

/-- Concrete instance of C5: wrong code `000000` against stored `123456`. -/
theorem C5_verify_otp_wrong_code_witness :
    verify_otp ⟨[], [("a@b.c", ⟨"123456", 0⟩)]⟩ "a@b.c" "000000" =
      (Resp.httpError 400 "Invalid OTP.", ⟨[], [("a@b.c", ⟨"123456", 0⟩)]⟩) ∧
    (verify_otp ⟨[], [("a@b.c", ⟨"123456", 0⟩)]⟩ "a@b.c" "123456").1 =
      Resp.ok "OTP verified successfully. User is now verified." :=
  C5_verify_otp_wrong_code ⟨[], [("a@b.c", ⟨"123456", 0⟩)]⟩ "a@b.c" "000000" ⟨"123456", 0⟩
    rfl (by decide)

/-- Claim C7: `login` fails 400 on an empty or whitespace-only password, else
404 when no user record exists, else 403 when the record is unverified, else
401 when the stored password differs — the guards of each case encode that
the checks apply in exactly this order. -/
theorem C7_login_error_order (st : AppState) (email pw : String) :
    (strippedEmpty pw = true →
      login st email pw = (Resp.httpError 400 "Password cannot be empty.", st)) ∧
    (strippedEmpty pw = false → lookupA st.users email = none →
      login st email pw = (Resp.httpError 404 "User not found.", st)) ∧
    (∀ u, strippedEmpty pw = false → lookupA st.users email = some u →
      u.verified = false →
      login st email pw = (Resp.httpError 403 "Email not verified. Please verify OTP first.", st)) ∧
    (∀ u, strippedEmpty pw = false → lookupA st.users email = some u →
      u.verified = true → u.password ≠ pw →
      login st email pw = (Resp.httpError 401 "Incorrect password.", st)) := by
  refine ⟨?_, ?_, ?_, ?_⟩
  · intro h
    simp [login, h]
  · intro h h2
    simp [login, h, h2]
  · intro u h h2 hv
    simp [login, h, h2, hv]
  · intro u h h2 hv hp
    simp [login, h, h2, hv, hp]

/-- Concrete instances of all four failure cases of C7. -/
theorem C7_login_error_order_witness :
    login ⟨[], []⟩ "a@b.c" "   " = (Resp.httpError 400 "Password cannot be empty.", ⟨[], []⟩) ∧
    login ⟨[], []⟩ "a@b.c" "Passw0rd1" = (Resp.httpError 404 "User not found.", ⟨[], []⟩) ∧
    login ⟨[("a@b.c", ⟨"i", "A", "B", "a@b.c", "Passw0rd1", false, none⟩)], []⟩ "a@b.c" "Passw0rd1" =
      (Resp.httpError 403 "Email not verified. Please verify OTP first.",
       ⟨[("a@b.c", ⟨"i", "A", "B", "a@b.c", "Passw0rd1", false, none⟩)], []⟩) ∧
    login ⟨[("a@b.c", ⟨"i", "A", "B", "a@b.c", "Passw0rd1", true, none⟩)], []⟩ "a@b.c" "Wrong0000" =
      (Resp.httpError 401 "Incorrect password.",
       ⟨[("a@b.c", ⟨"i", "A", "B", "a@b.c", "Passw0rd1", true, none⟩)], []⟩) :=
  ⟨(C7_login_error_order ⟨[], []⟩ "a@b.c" "   ").1 (by decide),
   (C7_login_error_order ⟨[], []⟩ "a@b.c" "Passw0rd1").2.1 (by decide) rfl,
   (C7_login_error_order ⟨[("a@b.c", ⟨"i", "A", "B", "a@b.c", "Passw0rd1", false, none⟩)], []⟩
      "a@b.c" "Passw0rd1").2.2.1 ⟨"i", "A", "B", "a@b.c", "Passw0rd1", false, none⟩
      (by decide) rfl rfl,
   (C7_login_error_order ⟨[("a@b.c", ⟨"i", "A", "B", "a@b.c", "Passw0rd1", true, none⟩)], []⟩
      "a@b.c" "Wrong0000").2.2.2 ⟨"i", "A", "B", "a@b.c", "Passw0rd1", true, none⟩
      (by decide) rfl rfl (by decide)⟩


/-- Claim C4 is false as stated: with a live challenge issued at time 0 and
`now = 299.5`, elapsed is below 300 so the call is rate-limited, but the
remaining wait `int(300 - 299.5)` is 0 — not strictly greater than 0. -/
theorem C4_resend_otp_counterexample :
    (resend_otp ⟨[], [("a@b.c", ⟨"111111", 0⟩)]⟩ "a@b.c" "222222" (599/2)).1 =
      Resp.httpError 403 (rateLimitDetail 0) ∧ ¬((0:ℤ) < 0) := by
  constructor
  · simp only [resend_otp, lookupA]
    norm_num
    rw [show truncInt (1/2) = 0 by
      rw [truncInt, if_pos (by norm_num)]
      rw [Int.floor_eq_zero_iff.mpr (by constructor <;> norm_num)]]
  · omega

/-- Claim C4 amended: with a live challenge and `challenge.timestamp ≤ now`,
whenever `elapsed = now - timestamp` is below 300 the call fails 403 carrying
`remaining = int(300 - elapsed)` with `0 ≤ remaining ≤ 300`, where
`remaining > 0` holds exactly when `elapsed ≤ 299` and `remaining < 300`
exactly when `elapsed > 0`; when `elapsed ≥ 300` the call succeeds, storing
the fresh code and the fresh timestamp. -/
theorem C4_resend_otp_amended (st : AppState) (email newOtp : String) (e : OTPEntry) (now : ℚ)
    (h1 : lookupA st.otps email = some e) (h2 : e.timestamp ≤ now) :
    (now - e.timestamp < 300 →
      resend_otp st email newOtp now =
        (Resp.httpError 403 (rateLimitDetail (truncInt (300 - (now - e.timestamp)))), st) ∧
      0 ≤ truncInt (300 - (now - e.timestamp)) ∧
      truncInt (300 - (now - e.timestamp)) ≤ 300 ∧
      (0 < truncInt (300 - (now - e.timestamp)) ↔ now - e.timestamp ≤ 299) ∧
      (truncInt (300 - (now - e.timestamp)) < 300 ↔ 0 < now - e.timestamp)) ∧
    (300 ≤ now - e.timestamp →
      resend_otp st email newOtp now =
        (Resp.ok ("OTP resent. Check console.", newOtp),
         { st with otps := insertA st.otps email ⟨newOtp, now⟩ })) := by
  constructor
  · intro hlt
    have hq0 : (0:ℚ) ≤ 300 - (now - e.timestamp) := by linarith
    have htr : truncInt (300 - (now - e.timestamp)) = ⌊(300:ℚ) - (now - e.timestamp)⌋ :=
      if_pos hq0
    refine ⟨?_, ?_, ?_, ?_, ?_⟩
    · simp [resend_otp, h1, hlt]
    · rw [htr]
      exact Int.le_floor.mpr (by push_cast; linarith)
    · rw [htr]
      have hb : ⌊(300:ℚ) - (now - e.timestamp)⌋ < 301 := Int.floor_lt.mpr (by push_cast; linarith)
      omega
    · rw [htr]
      constructor
      · intro h
        have h1q := Int.le_floor.mp (by omega : (1:ℤ) ≤ ⌊(300:ℚ) - (now - e.timestamp)⌋)
        push_cast at h1q
        linarith
      · intro h
        have h1q : (1:ℤ) ≤ ⌊(300:ℚ) - (now - e.timestamp)⌋ :=
          Int.le_floor.mpr (by push_cast; linarith)
        omega
    · rw [htr]
      constructor
      · intro h
        have hq := Int.floor_lt.mp h
        push_cast at hq
        linarith
      · intro h
        exact Int.floor_lt.mpr (by push_cast; linarith)
  · intro hge
    simp [resend_otp, h1, not_lt.mpr hge]

/-- Concrete instance of the amended C4: elapsed 100 seconds, remaining 200. -/
theorem C4_resend_otp_amended_witness :
    resend_otp ⟨[], [("a@b.c", ⟨"111111", 0⟩)]⟩ "a@b.c" "222222" 100 =
      (Resp.httpError 403 (rateLimitDetail (truncInt (300 - ((100:ℚ) - 0)))),
       ⟨[], [("a@b.c", ⟨"111111", 0⟩)]⟩) :=
  ((C4_resend_otp_amended ⟨[], [("a@b.c", ⟨"111111", 0⟩)]⟩ "a@b.c" "222222" ⟨"111111", 0⟩ 100
      rfl (by norm_num)).1 (by norm_num)).1

/-- Claim C6 is false in its last consequence: re-registering an unverified
user succeeds and overwrites the challenge, but when the freshly drawn code
happens to coincide with the old one (both `123456` here), the old OTP still
verifies afterwards. -/
theorem C6_signup_counterexample :
    (signup ⟨[("a@b.c", ⟨"id-0", "A", "B", "a@b.c", "Passw0rd1", false, none⟩)],
             [("a@b.c", ⟨"123456", 0⟩)]⟩
        "A" "B" "a@b.c" "Passw0rd1" "id-1" "123456" 10).1 =
      Resp.ok ("User registered successfully. OTP sent.", "123456", "a@b.c") ∧
    (verify_otp
        (signup ⟨[("a@b.c", ⟨"id-0", "A", "B", "a@b.c", "Passw0rd1", false, none⟩)],
                 [("a@b.c", ⟨"123456", 0⟩)]⟩
          "A" "B" "a@b.c" "Passw0rd1" "id-1" "123456" 10).2 "a@b.c" "123456").1 =
      Resp.ok "OTP verified successfully. User is now verified." := by decide

/-- Claim C6 amended: for valid registration input, if a verified record
exists `signup` fails with the conflict error and changes nothing; if the
record is absent or unverified it succeeds, overwriting the user record with
the fresh identifier and `verified = false` and overwriting any prior
challenge with the fresh code and current timestamp, so the old OTP no longer
verifies whenever the freshly generated code differs from it. -/
theorem C6_signup_amended (st : AppState) (fn ln em pw newId newOtp : String) (now : ℚ)
    (hEm : is_valid_email em = true) (hFn : strippedEmpty fn = false)
    (hLn : strippedEmpty ln = false) (hPw : is_strong_password pw = true) :
    (∀ u, lookupA st.users em = some u → u.verified = true →
      signup st fn ln em pw newId newOtp now =
        (Resp.httpError 400 "Email already registered and verified. Please login instead.", st)) ∧
    ((∀ u, lookupA st.users em = some u → u.verified = false) →
      signup st fn ln em pw newId newOtp now =
        (Resp.ok ("User registered successfully. OTP sent.", newOtp, em),
         ⟨insertA st.users em ⟨newId, fn, ln, em, pw, false, none⟩,
          insertA st.otps em ⟨newOtp, now⟩⟩) ∧
      ∀ e, lookupA st.otps em = some e → e.otp ≠ newOtp →
        (verify_otp ⟨insertA st.users em ⟨newId, fn, ln, em, pw, false, none⟩,
                     insertA st.otps em ⟨newOtp, now⟩⟩ em e.otp).1 =
          Resp.httpError 400 "Invalid OTP.") := by
  constructor
  · intro u hu hv
    simp [signup, hEm, hFn, hLn, hPw, hu, hv]
  · intro hunv
    constructor
    · rcases h : lookupA st.users em with _ | u
      · simp [signup, hEm, hFn, hLn, hPw, h]
      · simp [signup, hEm, hFn, hLn, hPw, h, hunv u h]
    · intro e he hne
      have hl : lookupA (insertA st.otps em ⟨newOtp, now⟩) em = some ⟨newOtp, now⟩ :=
        lookupA_insertA_self _ _ _
      simp [verify_otp, hl, Ne.symm hne]

/-- Concrete instance of the amended C6: re-registration of an unverified
user replaces challenge `111111` by `222222`, and `111111` then fails. -/
theorem C6_signup_amended_witness :
    signup ⟨[("a@b.c", ⟨"id-0", "A", "B", "a@b.c", "Passw0rd1", false, none⟩)],
            [("a@b.c", ⟨"111111", 0⟩)]⟩ "A" "B" "a@b.c" "Passw0rd1" "id-1" "222222" 10 =
      (Resp.ok ("User registered successfully. OTP sent.", "222222", "a@b.c"),
       ⟨insertA [("a@b.c", ⟨"id-0", "A", "B", "a@b.c", "Passw0rd1", false, none⟩)] "a@b.c"
          ⟨"id-1", "A", "B", "a@b.c", "Passw0rd1", false, none⟩,
        insertA [("a@b.c", ⟨"111111", 0⟩)] "a@b.c" ⟨"222222", 10⟩⟩) ∧
    (verify_otp ⟨insertA [("a@b.c", ⟨"id-0", "A", "B", "a@b.c", "Passw0rd1", false, none⟩)] "a@b.c"
          ⟨"id-1", "A", "B", "a@b.c", "Passw0rd1", false, none⟩,
        insertA [("a@b.c", ⟨"111111", 0⟩)] "a@b.c" ⟨"222222", 10⟩⟩ "a@b.c" "111111").1 =
      Resp.httpError 400 "Invalid OTP." := by
  have h := (C6_signup_amended
      ⟨[("a@b.c", ⟨"id-0", "A", "B", "a@b.c", "Passw0rd1", false, none⟩)],
       [("a@b.c", ⟨"111111", 0⟩)]⟩ "A" "B" "a@b.c" "Passw0rd1" "id-1" "222222" 10
      (by decide) (by decide) (by decide) (by decide)).2
      (fun u hu => by rw [← Option.some.inj hu])
  exact ⟨h.1, h.2 ⟨"111111", 0⟩ rfl (by decide)⟩

/-- Claim C8: `is_strong_password` accepts exactly the passwords of length at
least 8 containing an uppercase ASCII letter, a lowercase ASCII letter and a
digit (the specification-side predicate `specStrongPassword`), and any signup
input violating this — or with a malformed email or an empty-after-trimming
name — fails with a 400 validation error while the state is left unchanged. -/
theorem C8_signup_password_validation (st : AppState) (fn ln em pw newId newOtp : String)
    (now : ℚ) :
    (is_strong_password pw = true ↔ specStrongPassword pw) ∧
    ((is_valid_email em = false ∨ strippedEmpty fn = true ∨ strippedEmpty ln = true ∨
        is_strong_password pw = false) →
      ∃ d, signup st fn ln em pw newId newOtp now = (Resp.httpError 400 d, st)) := by
  constructor
  · simp [is_strong_password, specStrongPassword, List.any_eq_true, and_assoc]
  · intro h
    rcases h with h | h | h | h
    · exact ⟨"Invalid email format.", by simp [signup, h]⟩
    · rcases Bool.eq_false_or_eq_true (is_valid_email em) with hEm | hEm
      · exact ⟨"First and last name cannot be empty.", by simp [signup, hEm, h]⟩
      · exact ⟨"Invalid email format.", by simp [signup, hEm]⟩
    · rcases Bool.eq_false_or_eq_true (is_valid_email em) with hEm | hEm
      · exact ⟨"First and last name cannot be empty.", by simp [signup, hEm, h]⟩
      · exact ⟨"Invalid email format.", by simp [signup, hEm]⟩
    · rcases Bool.eq_false_or_eq_true (is_valid_email em) with hEm | hEm
      · rcases Bool.eq_false_or_eq_true (strippedEmpty fn) with hFn | hFn
        · exact ⟨"First and last name cannot be empty.", by simp [signup, hEm, hFn]⟩
        · rcases Bool.eq_false_or_eq_true (strippedEmpty ln) with hLn | hLn
          · exact ⟨"First and last name cannot be empty.", by simp [signup, hEm, hFn, hLn]⟩
          · exact ⟨"Password must contain uppercase, lowercase, and digit.",
              by simp [signup, hEm, hFn, hLn, h]⟩
      · exact ⟨"Invalid email format.", by simp [signup, hEm]⟩

/-- Concrete instance of C8: the all-lowercase password is rejected. -/
theorem C8_signup_password_validation_witness :
    ∃ d, signup ⟨[], []⟩ "A" "B" "a@b.c" "password" "id-1" "123456" 0 =
      (Resp.httpError 400 d, ⟨[], []⟩) :=
  (C8_signup_password_validation ⟨[], []⟩ "A" "B" "a@b.c" "password" "id-1" "123456" 0).2
    (Or.inr (Or.inr (Or.inr (by decide))))

/-- Claim C9: on an existing record, `update_user` writes only the keys
`"name"` and `"password"` — `id`, `email`, `verified`, `first_name` and
`last_name` keep their values (in particular the verified flag is never
cleared) — and leaves every other email's record and the whole OTP store
unchanged. -/
theorem C9_update_user_frame (st : AppState) (email nm pw : String) (u : UserRecord)
    (hu : lookupA st.users email = some u) :
    (∃ u', lookupA (update_user st email nm pw).2.users email = some u' ∧
      u'.id = u.id ∧ u'.email = u.email ∧ u'.verified = u.verified ∧
      u'.first_name = u.first_name ∧ u'.last_name = u.last_name ∧
      u'.name = some nm ∧ u'.password = pw) ∧
    (∀ k, k ≠ email → lookupA (update_user st email nm pw).2.users k = lookupA st.users k) ∧
    (update_user st email nm pw).2.otps = st.otps := by
  refine ⟨⟨{ u with name := some nm, password := pw }, ?_, rfl, rfl, rfl, rfl, rfl, rfl, rfl⟩,
    ?_, ?_⟩
  · simp [update_user, hu, lookupA_insertA_self]
  · intro k hk
    simp only [update_user, hu]
    exact lookupA_insertA_ne _ _ _ _ hk
  · simp [update_user, hu]

/-- Concrete instance of C9 on a one-user store with an unrelated challenge. -/
theorem C9_update_user_frame_witness :
    (∃ u', lookupA (update_user ⟨[("a@b.c", ⟨"i", "A", "B", "a@b.c", "Passw0rd1", true, none⟩)],
        [("x@y.z", ⟨"999999", 7⟩)]⟩ "a@b.c" "N" "p").2.users "a@b.c" = some u' ∧
      u'.id = "i" ∧ u'.email = "a@b.c" ∧ u'.verified = true ∧
      u'.first_name = "A" ∧ u'.last_name = "B" ∧
      u'.name = some "N" ∧ u'.password = "p") ∧
    (∀ k, k ≠ "a@b.c" →
      lookupA (update_user ⟨[("a@b.c", ⟨"i", "A", "B", "a@b.c", "Passw0rd1", true, none⟩)],
        [("x@y.z", ⟨"999999", 7⟩)]⟩ "a@b.c" "N" "p").2.users k =
      lookupA [("a@b.c", ⟨"i", "A", "B", "a@b.c", "Passw0rd1", true, none⟩)] k) ∧
    (update_user ⟨[("a@b.c", ⟨"i", "A", "B", "a@b.c", "Passw0rd1", true, none⟩)],
        [("x@y.z", ⟨"999999", 7⟩)]⟩ "a@b.c" "N" "p").2.otps = [("x@y.z", ⟨"999999", 7⟩)] :=
  C9_update_user_frame ⟨[("a@b.c", ⟨"i", "A", "B", "a@b.c", "Passw0rd1", true, none⟩)],
    [("x@y.z", ⟨"999999", 7⟩)]⟩ "a@b.c" "N" "p"
    ⟨"i", "A", "B", "a@b.c", "Passw0rd1", true, none⟩ rfl

/-- Claim C10: `resend_otp` never touches the users store, and with a live
challenge whose elapsed time is at least 300 it succeeds even when no user
record exists for the email. -/
theorem C10_resend_otp_frame (st : AppState) (email newOtp : String) (now : ℚ) :
    (resend_otp st email newOtp now).2.users = st.users ∧
    (∀ e, lookupA st.otps email = some e → lookupA st.users email = none →
      300 ≤ now - e.timestamp →
      resend_otp st email newOtp now =
        (Resp.ok ("OTP resent. Check console.", newOtp),
         ⟨st.users, insertA st.otps email ⟨newOtp, now⟩⟩)) := by
  constructor
  · rcases h : lookupA st.otps email with _ | e
    · simp [resend_otp, h]
    · by_cases hlt : now - e.timestamp < 300
      · simp [resend_otp, h, hlt]
      · simp [resend_otp, h, hlt]
  · intro e he hu hge
    simp [resend_otp, he, not_lt.mpr hge]

/-- Concrete instance of C10: resend at elapsed 300 with no user record. -/
theorem C10_resend_otp_frame_witness :
    (resend_otp ⟨[], [("a@b.c", ⟨"111111", 0⟩)]⟩ "a@b.c" "222222" 300).2.users = [] ∧
    resend_otp ⟨[], [("a@b.c", ⟨"111111", 0⟩)]⟩ "a@b.c" "222222" 300 =
      (Resp.ok ("OTP resent. Check console.", "222222"),
       ⟨[], insertA [("a@b.c", ⟨"111111", 0⟩)] "a@b.c" ⟨"222222", 300⟩⟩) :=
  ⟨(C10_resend_otp_frame ⟨[], [("a@b.c", ⟨"111111", 0⟩)]⟩ "a@b.c" "222222" 300).1,
   (C10_resend_otp_frame ⟨[], [("a@b.c", ⟨"111111", 0⟩)]⟩ "a@b.c" "222222" 300).2
     ⟨"111111", 0⟩ rfl rfl (by show (300:ℚ) ≤ 300 - 0; norm_num)⟩

end FlowerShop
